import Mathlib

/-!
Shallow embedding of the ts-logix-backend warehouse core: the pallet
allocation entry point (`assignPallets`), cell listing with client scoping
(`getAllWarehouseCells`), the cell quality-purpose change
(`changeCellQualityPurpose`), entry order creation and update
(`createEntryOrder`, `updateEntryOrder`), and the FIFO selector
(`SuggestAllocation`, modelled from the specification since its code is not
in the repository snapshot).

Stateful Prisma code is embedded as explicit state passing over the `Store`
record; a `prisma.$transaction` is a body of type
`Store → Store × Except String α` wrapped by `runTx`, which restores the
initial store when the body ends in an error (rollback).
-/

namespace TsLogix

/-! ### Enumerations (from prisma/migrations .../migration.sql) -/

inductive CellKind
  | NORMAL
  | DAMAGED
  | TRANSFER
  | RESERVED
  deriving DecidableEq

inductive CellStatus
  | AVAILABLE
  | OCCUPIED
  deriving DecidableEq

inductive CellRole
  | STANDARD
  | DAMAGED
  | EXPIRED
  | RETURNS
  | SAMPLES
  | REJECTED
  deriving DecidableEq

inductive InventoryStatus
  | AVAILABLE
  | RESERVED
  | HOLD
  | DAMAGED
  | DEPLETED
  | EXPIRED
  | IN_TRANSIT
  | PENDING_INSPECTION
  | QUARANTINED
  | RETURNED
  | DISPOSED
  deriving DecidableEq

inductive MovementType
  | ENTRY
  | DEPARTURE
  | TRANSFER
  | ADJUSTMENT
  | RETURN
  | DISPOSAL
  | RECALL
  | INSPECTION
  deriving DecidableEq

inductive ReviewStatus
  | PENDING
  | APPROVED
  | REJECTED
  | NEEDS_REVISION
  deriving DecidableEq

/-! ### Records -/

structure WarehouseCell where
  id : String
  warehouse_id : String
  row : String
  bay : Nat
  position : Nat
  kind : CellKind
  status : CellStatus
  is_passage : Bool
  cell_role : CellRole
  currentUsage : Int
  deriving DecidableEq

structure Inventory where
  product_id : String
  warehouse_id : String
  cell_id : String
  quantity : Int
  status : InventoryStatus
  deriving DecidableEq

structure InventoryLog where
  user_id : String
  product_id : String
  quantity_change : Int
  movement_type : MovementType
  warehouse_id : String
  cell_id : String
  notes : String
  deriving DecidableEq

structure SystemAuditEntry where
  user_id : String
  action : String
  entity_type : String
  entity_id : String
  description : String
  old_role : CellRole
  new_role : CellRole
  change_reason : String
  deriving DecidableEq

structure ClientUserAccount where
  user_id : String
  client_id : String
  is_active : Bool
  deriving DecidableEq

structure ClientCellAssignment where
  cell_id : String
  client_id : String
  is_active : Bool
  deriving DecidableEq

structure Product where
  product_id : String
  product_code : String
  deriving DecidableEq

structure Order where
  order_id : String
  order_type : String
  status : String
  organisation_id : String
  created_by : String
  priority : String
  deriving DecidableEq

structure EntryOrder where
  entry_order_id : String
  order_id : String
  entry_order_no : String
  origin_id : Option String
  document_type_id : Option String
  registration_date : Option Int
  document_date : Option Int
  entry_date_time : Option Int
  created_by : String
  order_status : String
  total_volume : Option Int
  total_weight : Option Int
  cif_value : Option Int
  total_pallets : Option Int
  observation : Option String
  uploaded_documents : Option String
  review_status : ReviewStatus
  review_comments : Option String
  reviewed_by : Option String
  reviewed_at : Option Int
  warehouse_id : Option String
  deriving DecidableEq

structure EntryOrderProduct where
  entry_order_product_id : String
  entry_order_id : String
  serial_number : Option String
  supplier_id : Option String
  product_code : String
  product_id : String
  lot_series : Option String
  manufacturing_date : Option Int
  expiration_date : Option Int
  inventory_quantity : Int
  package_quantity : Int
  quantity_pallets : Option Int
  presentation : String
  guide_number : Option String
  weight_kg : Int
  volume_m3 : Option Int
  insured_value : Option Int
  temperature_range : String
  humidity : Option String
  health_registration : Option String
  deriving DecidableEq

/-- The relational store: one list per table that the embedded operations
touch, plus a counter used to generate fresh primary keys. -/
structure Store where
  warehouses : List String
  warehouseCells : List WarehouseCell
  inventories : List Inventory
  inventoryLogs : List InventoryLog
  systemAuditLogs : List SystemAuditEntry
  clientUserAccounts : List ClientUserAccount
  clientCellAssignments : List ClientCellAssignment
  products : List Product
  orders : List Order
  entryOrders : List EntryOrder
  entryOrderProducts : List EntryOrderProduct
  nextId : Nat
  deriving DecidableEq

instance {ε α : Type} [DecidableEq ε] [DecidableEq α] :
    DecidableEq (Except ε α) := fun a b =>
  match a, b with
  | Except.error e, Except.error f =>
      if h : e = f then isTrue (by rw [h])
      else isFalse (fun hc => h (Except.error.inj hc))
  | Except.ok x, Except.ok y =>
      if h : x = y then isTrue (by rw [h])
      else isFalse (fun hc => h (Except.ok.inj hc))
  | Except.error _, Except.ok _ => isFalse (fun hc => Except.noConfusion hc)
  | Except.ok _, Except.error _ => isFalse (fun hc => Except.noConfusion hc)

/-- Whether a result is an error (a thrown exception). -/
def isErr {ε α : Type} : Except ε α → Bool
  | Except.error _ => true
  | Except.ok _ => false

/-- `prisma.$transaction`: run the body; if it throws, roll every write back
(the pre-transaction store is returned together with the error). -/
def runTx (body : Store → Store × Except String α) (s : Store) :
    Store × Except String α :=
  match body s with
  | (s₁, Except.ok r) => (s₁, Except.ok r)
  | (_, Except.error e) => (s, Except.error e)

/-! ### A generic insertion sort (for Prisma `orderBy` clauses) -/

def insertBy (le : α → α → Bool) (a : α) : List α → List α
  | [] => [a]
  | b :: bs => if le a b then a :: b :: bs else b :: insertBy le a bs

def sortBy (le : α → α → Bool) : List α → List α
  | [] => []
  | a :: as => insertBy le a (sortBy le as)

/-! ### assignPallets (warehouse service) -/

/-- JS `String(n).padStart(2, "0")` for a natural number. -/
def pad2 (n : Nat) : String :=
  let s := toString n
  if s.length < 2 then "0" ++ s else s

/-- `"${row}.${pad(bay)}.${pad(position)}"`, the cell reference used in
inventory log notes. -/
def cellRef (row : String) (bay position : Nat) : String :=
  row ++ "." ++ pad2 bay ++ "." ++ pad2 position

/-- The `where` clause of the free-slot query:
`{ warehouse_id, row, kind: "NORMAL", status: "AVAILABLE", is_passage: false }`. -/
def isFreeSlot (warehouse_id row : String) (c : WarehouseCell) : Bool :=
  decide (c.warehouse_id = warehouse_id ∧ c.row = row ∧
    c.kind = CellKind.NORMAL ∧ c.status = CellStatus.AVAILABLE ∧
    c.is_passage = false)

/-- `orderBy: [{ bay: "asc" }, { position: "asc" }]`. -/
def slotLE (a b : WarehouseCell) : Bool :=
  decide (a.bay < b.bay ∨ (a.bay = b.bay ∧ a.position ≤ b.position))

/-- The free slots of a warehouse row, sorted by bay then position. -/
def freeSlotsIn (s : Store) (warehouse_id row : String) : List WarehouseCell :=
  sortBy slotLE (s.warehouseCells.filter (isFreeSlot warehouse_id row))

/-- The Inventory row created for one stored pallet. -/
def mkPalletInventory (warehouse_id product_id : String)
    (slot : WarehouseCell) : Inventory :=
  { product_id := product_id, warehouse_id := warehouse_id,
    cell_id := slot.id, quantity := 1,
    status := InventoryStatus.AVAILABLE }

/-- The InventoryLog row created for one stored pallet. -/
def mkPalletLog (warehouse_id product_id user_id row : String)
    (slot : WarehouseCell) : InventoryLog :=
  { user_id := user_id, product_id := product_id, quantity_change := 1,
    movement_type := MovementType.ENTRY, warehouse_id := warehouse_id,
    cell_id := slot.id,
    notes := "Stored 1 pallet in " ++ cellRef row slot.bay slot.position }

/-- `warehouseCell.update`: `currentUsage: { increment: 1 }, status: OCCUPIED`. -/
def bumpCell (c : WarehouseCell) : WarehouseCell :=
  { c with currentUsage := c.currentUsage + 1, status := CellStatus.OCCUPIED }

def bumpCells (cells : List WarehouseCell) (cid : String) : List WarehouseCell :=
  cells.map (fun c => if c.id = cid then bumpCell c else c)

/-- One iteration of the assignment loop: create the Inventory row, create
the InventoryLog row, and update the slot's usage counter and status. -/
def storePallet (warehouse_id product_id user_id row : String)
    (s : Store) (slot : WarehouseCell) : Store :=
  { s with
    inventories := s.inventories ++ [mkPalletInventory warehouse_id product_id slot],
    inventoryLogs :=
      s.inventoryLogs ++ [mkPalletLog warehouse_id product_id user_id row slot],
    warehouseCells := bumpCells s.warehouseCells slot.id }

/-- Body of the `assignPallets` transaction, with explicit state threading:
an error carries the store as it stood when the throw happened.
(`if (!wh) throw` is rendered with the positive test in the outer if.) -/
def assignPalletsTx (s : Store) (warehouse_id row : String) (palletCount : Int)
    (product_id user_id : String) :
    Store × Except String (List WarehouseCell) :=
  if warehouse_id ∈ s.warehouses then
    if row = "" then (s, Except.error "Row code is required")
    else if palletCount < 1 then (s, Except.error "palletCount must be ≥ 1")
    else
      let freeSlots := freeSlotsIn s warehouse_id row
      if (freeSlots.length : Int) < palletCount then
        (s, Except.error ("Not enough free slots in row " ++ row ++
          ": requested " ++ toString palletCount ++
          ", found " ++ toString freeSlots.length))
      else
        let assigned := freeSlots.take palletCount.toNat
        (assigned.foldl (storePallet warehouse_id product_id user_id row) s,
         Except.ok assigned)
  else (s, Except.error "Warehouse not found")

/-- `assignPallets`: assign N pallets in a given row of a warehouse, run as
one transaction. -/
def assignPallets (s : Store) (warehouse_id row : String) (palletCount : Int)
    (product_id user_id : String) :
    Store × Except String (List WarehouseCell) :=
  runTx (fun st => assignPalletsTx st warehouse_id row palletCount product_id user_id) s

/-! ### getAllWarehouseCells (warehouse service) -/

/-- `orderBy: [{warehouse_id: asc}, {row: asc}, {bay: asc}, {position: asc}]`. -/
def cellListLE (a b : WarehouseCell) : Bool :=
  decide (a.warehouse_id < b.warehouse_id ∨ (a.warehouse_id = b.warehouse_id ∧
    (a.row < b.row ∨ (a.row = b.row ∧
      (a.bay < b.bay ∨ (a.bay = b.bay ∧ a.position ≤ b.position))))))

/-- The user's active client accounts
(`clientUserAccounts: { where: { is_active: true } }`), mapped to client ids. -/
def activeClientIdsOf (s : Store) (userId : String) : List String :=
  (s.clientUserAccounts.filter
      (fun a => decide (a.user_id = userId ∧ a.is_active = true))).map
    (fun a => a.client_id)

/-- `clientCellAssignments: { some: { is_active: true, client_id: { in: clientIds } } }`. -/
def hasActiveAssignmentTo (s : Store) (clientIds : List String)
    (c : WarehouseCell) : Bool :=
  s.clientCellAssignments.any (fun a =>
    decide (a.cell_id = c.id ∧ a.is_active = true ∧ a.client_id ∈ clientIds))

/-- `if (filter.warehouse_id) where.warehouse_id = filter.warehouse_id`. -/
def matchesWarehouseFilter (fw : Option String) (c : WarehouseCell) : Bool :=
  match fw with
  | some w => decide (c.warehouse_id = w)
  | none => true

/-- Fetch all cells; a user whose role is neither ADMIN nor
WAREHOUSE_INCHARGE sees only cells assigned to one of their active client
accounts, and nothing at all when they have no active client account. -/
def getAllWarehouseCells (s : Store) (filterWarehouse : Option String)
    (userId userRole : Option String) : List WarehouseCell :=
  let isClientUser : Bool :=
    match userRole with
    | some r => decide (¬ (r = "ADMIN" ∨ r = "WAREHOUSE_INCHARGE"))
    | none => false
  match isClientUser, userId with
  | true, some uid =>
      let userClientIds := activeClientIdsOf s uid
      if userClientIds.isEmpty then []
      else
        sortBy cellListLE (s.warehouseCells.filter (fun c =>
          matchesWarehouseFilter filterWarehouse c &&
          hasActiveAssignmentTo s userClientIds c))
  | _, _ =>
      sortBy cellListLE
        (s.warehouseCells.filter (matchesWarehouseFilter filterWarehouse))

/-! ### changeCellQualityPurpose (warehouse service) -/

/-- The Prisma enum value of a cell role, as the JS string. -/
def roleToString : CellRole → String
  | CellRole.STANDARD => "STANDARD"
  | CellRole.DAMAGED => "DAMAGED"
  | CellRole.EXPIRED => "EXPIRED"
  | CellRole.RETURNS => "RETURNS"
  | CellRole.SAMPLES => "SAMPLES"
  | CellRole.REJECTED => "REJECTED"

/-- `const validRoles = ['STANDARD', 'REJECTED', 'SAMPLES', 'RETURNS', 'DAMAGED', 'EXPIRED']`. -/
def validRoles : List String :=
  ["STANDARD", "REJECTED", "SAMPLES", "RETURNS", "DAMAGED", "EXPIRED"]

/-- Parse a role string; succeeds exactly on the members of `validRoles`
(`validRoles.includes(newCellRole)`). -/
def parseRole (r : String) : Option CellRole :=
  if r = "STANDARD" then some CellRole.STANDARD
  else if r = "REJECTED" then some CellRole.REJECTED
  else if r = "SAMPLES" then some CellRole.SAMPLES
  else if r = "RETURNS" then some CellRole.RETURNS
  else if r = "DAMAGED" then some CellRole.DAMAGED
  else if r = "EXPIRED" then some CellRole.EXPIRED
  else none

/-- The human-readable purpose text used in the success message. -/
def purposeMapping : CellRole → String
  | CellRole.STANDARD => "Regular storage"
  | CellRole.REJECTED => "RECHAZADOS - Rejected products"
  | CellRole.SAMPLES => "CONTRAMUESTRAS - Product samples"
  | CellRole.RETURNS => "DEVOLUCIONES - Product returns"
  | CellRole.DAMAGED => "Damaged products"
  | CellRole.EXPIRED => "Expired products"

/-- `prisma.warehouseCell.findUnique({ where: { id: cellId } })`. -/
def getCell (cells : List WarehouseCell) (cellId : String) :
    Option WarehouseCell :=
  cells.find? (fun c => decide (c.id = cellId))

structure RoleChangeResult where
  message : String
  changed : Bool
  deriving DecidableEq

/-- Errors thrown in the service are re-thrown wrapped by the outer catch. -/
def roleChangeError (msg : String) : Except String RoleChangeResult :=
  Except.error ("Error changing cell quality purpose: " ++ msg)

/-- Change a cell's quality purpose (ADMIN only); a no-op returning
`changed = false` when the cell already has the requested role, otherwise
one transaction updating `cell_role` and appending a system audit entry. -/
def changeCellQualityPurpose (s : Store) (cellId newCellRole userRole userId : String)
    (changeReason : Option String) : Store × Except String RoleChangeResult :=
  if userRole = "ADMIN" then
    match parseRole newCellRole with
    | none =>
        (s, roleChangeError ("Invalid cell role. Must be one of: " ++
          String.intercalate ", " validRoles))
    | some newRole =>
        match getCell s.warehouseCells cellId with
        | none => (s, roleChangeError "Cell not found")
        | some currentCell =>
            if currentCell.cell_role = newRole then
              (s, Except.ok { message := "Cell is already set to " ++ newCellRole,
                              changed := false })
            else
              let s₁ := { s with
                warehouseCells := s.warehouseCells.map (fun c =>
                  if c.id = cellId then { c with cell_role := newRole } else c),
                systemAuditLogs := s.systemAuditLogs ++ [{
                  user_id := userId,
                  action := "CELL_ROLE_CHANGE",
                  entity_type := "WarehouseCell",
                  entity_id := cellId,
                  description := "Changed cell quality purpose from " ++
                    roleToString currentCell.cell_role ++ " to " ++ newCellRole,
                  old_role := currentCell.cell_role,
                  new_role := newRole,
                  change_reason := changeReason.getD "No reason provided" }] }
              (s₁, Except.ok {
                message := "Cell quality purpose changed from " ++
                  purposeMapping currentCell.cell_role ++ " to " ++
                  purposeMapping newRole,
                changed := true })
  else (s, roleChangeError "Only ADMIN users can change cell quality purposes")

/-! ### createEntryOrder (entry order service)

JS falsy checks on required string fields are modelled with `""` as the
missing value, and on required numeric fields with `0` (both are falsy). -/

structure EntryProductData where
  serial_number : Option String
  supplier_id : Option String
  product_code : String
  product_id : String
  lot_series : Option String
  manufacturing_date : Option Int
  expiration_date : Option Int
  inventory_quantity : Int
  package_quantity : Int
  quantity_pallets : Int
  presentation : Option String
  guide_number : Option String
  weight_kg : Int
  volume_m3 : Int
  insured_value : Int
  temperature_range : Option String
  humidity : Option String
  health_registration : Option String
  deriving DecidableEq

structure EntryData where
  organisation_id : String
  created_by : String
  priority : Option String
  entry_order_no : String
  origin_id : Option String
  document_type_id : Option String
  registration_date : Option Int
  document_date : Option Int
  entry_date_time : Option Int
  order_status : Option String
  total_volume : Option Int
  total_weight : Option Int
  cif_value : Option Int
  total_pallets : Option Int
  observation : Option String
  uploaded_documents : Option String
  warehouse_id : Option String
  products : Option (List EntryProductData)
  deriving DecidableEq

/-- `productCodes.filter((code, index) => productCodes.indexOf(code) !== index)`:
every occurrence that is not the first occurrence of its value. The `seen`
accumulator holds the codes already passed. -/
def duplicatesIn : List String → List String → List String
  | [], _ => []
  | c :: rest, seen =>
      if c ∈ seen then c :: duplicatesIn rest (seen ++ [c])
      else duplicatesIn rest (seen ++ [c])

/-- `[...new Set(l)]`: deduplicate keeping first occurrences. -/
def dedupAux : List String → List String → List String
  | [], _ => []
  | c :: rest, seen =>
      if c ∈ seen then dedupAux rest seen
      else c :: dedupAux rest (seen ++ [c])

def dedupFirst (l : List String) : List String :=
  dedupAux l []

/-- `prisma.product.findUnique({ where: { product_id } })`. -/
def findProduct (s : Store) (product_id : String) : Option Product :=
  s.products.find? (fun p => decide (p.product_id = product_id))

/-- The per-product validation pass of `createEntryOrder` (missing required
fields, unknown product id, product code mismatch), with the 1-based
position used in the error messages. Returns the first error, if any. -/
def validateEntryProduct (s : Store) (i : Nat) (p : EntryProductData) :
    Option String :=
  if p.product_code = "" ∨ p.product_id = "" then
    some ("Product " ++ toString (i + 1) ++
      ": Missing required fields product_code and product_id")
  else if p.inventory_quantity = 0 ∨ p.package_quantity = 0 ∨ p.weight_kg = 0 then
    some ("Product " ++ toString (i + 1) ++ " (" ++ p.product_code ++
      "): Missing required quantity fields")
  else
    match findProduct s p.product_id with
    | none =>
        some ("Product " ++ toString (i + 1) ++ ": Product with ID " ++
          p.product_id ++ " not found")
    | some existing =>
        if existing.product_code ≠ p.product_code then
          some ("Product " ++ toString (i + 1) ++
            ": Product code mismatch. Expected " ++ existing.product_code ++
            ", got " ++ p.product_code)
        else none

def validateEntryProducts (s : Store) : Nat → List EntryProductData → Option String
  | _, [] => none
  | i, p :: rest =>
      match validateEntryProduct s i p with
      | some e => some e
      | none => validateEntryProducts s (i + 1) rest

/-- The EntryOrderProduct row created from one product payload
(`parseInt(x) || null` on optional numerics becomes `none` at `0`). -/
def mkEntryOrderProduct (entry_order_id entry_order_product_id : String)
    (p : EntryProductData) : EntryOrderProduct :=
  { entry_order_product_id := entry_order_product_id,
    entry_order_id := entry_order_id,
    serial_number := p.serial_number,
    supplier_id := p.supplier_id,
    product_code := p.product_code,
    product_id := p.product_id,
    lot_series := p.lot_series,
    manufacturing_date := p.manufacturing_date,
    expiration_date := p.expiration_date,
    inventory_quantity := p.inventory_quantity,
    package_quantity := p.package_quantity,
    quantity_pallets := if p.quantity_pallets = 0 then none else some p.quantity_pallets,
    presentation := p.presentation.getD "CAJA",
    guide_number := p.guide_number,
    weight_kg := p.weight_kg,
    volume_m3 := if p.volume_m3 = 0 then none else some p.volume_m3,
    insured_value := if p.insured_value = 0 then none else some p.insured_value,
    temperature_range := p.temperature_range.getD "AMBIENTE",
    humidity := p.humidity,
    health_registration := p.health_registration }

structure CreateEntryResult where
  entryOrder : EntryOrder
  products : List EntryOrderProduct
  deriving DecidableEq

/-- The duplicate-product-code error message of `createEntryOrder`. -/
def dupEntryMessage (codes : List String) : String :=
  "Duplicate product codes found in entry order: " ++
    String.intercalate ", " (dedupFirst (duplicatesIn codes [])) ++
    ". Each product can only appear once per entry order."

/-- Body of the `createEntryOrder` transaction: create the base Order, the
EntryOrder (review status PENDING), then validate and create the products.
The duplicate-code check runs before any per-product validation. -/
def createEntryOrderTx (s : Store) (d : EntryData) :
    Store × Except String CreateEntryResult :=
  let orderId := "order-" ++ toString s.nextId
  let baseOrder : Order := {
    order_id := orderId, order_type := "ENTRY", status := "PENDING",
    organisation_id := d.organisation_id, created_by := d.created_by,
    priority := d.priority.getD "NORMAL" }
  let s₁ := { s with
    nextId := s.nextId + 1,
    orders := s.orders ++ [baseOrder] }
  let entryOrderId := "entry-" ++ toString s₁.nextId
  let eo : EntryOrder := {
    entry_order_id := entryOrderId,
    order_id := orderId,
    entry_order_no := d.entry_order_no,
    origin_id := d.origin_id,
    document_type_id := d.document_type_id,
    registration_date := some (d.registration_date.getD 0),
    document_date := d.document_date,
    entry_date_time := d.entry_date_time,
    created_by := d.created_by,
    order_status := d.order_status.getD "REVISION",
    total_volume := d.total_volume,
    total_weight := d.total_weight,
    cif_value := d.cif_value,
    total_pallets := d.total_pallets,
    observation := d.observation,
    uploaded_documents := d.uploaded_documents,
    review_status := ReviewStatus.PENDING,
    review_comments := none,
    reviewed_by := none,
    reviewed_at := none,
    warehouse_id := d.warehouse_id }
  let s₂ := { s₁ with nextId := s₁.nextId + 1, entryOrders := s₁.entryOrders ++ [eo] }
  match d.products with
  | none => (s₂, Except.ok { entryOrder := eo, products := [] })
  | some ps =>
      let productCodes := ps.map (fun p => p.product_code)
      if duplicatesIn productCodes [] ≠ [] then
        (s₂, Except.error (dupEntryMessage productCodes))
      else
        match validateEntryProducts s₂ 0 ps with
        | some e => (s₂, Except.error e)
        | none =>
            let step := fun (acc : Store × List EntryOrderProduct) (p : EntryProductData) =>
              let rec₀ := mkEntryOrderProduct entryOrderId
                ("eop-" ++ toString acc.1.nextId) p
              ({ acc.1 with
                  nextId := acc.1.nextId + 1,
                  entryOrderProducts := acc.1.entryOrderProducts ++ [rec₀] },
               acc.2 ++ [rec₀])
            let r := ps.foldl step (s₂, [])
            (r.1, Except.ok { entryOrder := eo, products := r.2 })

/-- `createEntryOrder`: the transaction wrapper around `createEntryOrderTx`. -/
def createEntryOrder (s : Store) (d : EntryData) :
    Store × Except String CreateEntryResult :=
  runTx (fun st => createEntryOrderTx st d) s

/-! ### updateEntryOrder (entry order service) -/

structure UpdateProductData where
  entry_order_product_id : Option String
  serial_number : Option String
  supplier_id : Option String
  product_code : String
  product_id : String
  lot_series : Option String
  manufacturing_date : Option Int
  expiration_date : Option Int
  inventory_quantity : Int
  package_quantity : Int
  quantity_pallets : Int
  presentation : Option String
  guide_number : Option String
  weight_kg : Int
  volume_m3 : Int
  insured_value : Int
  temperature_range : Option String
  humidity : Option String
  health_registration : Option String
  deriving DecidableEq

/-- The update payload: `undefined` (field absent) is `none`. -/
structure EntryUpdateData where
  origin_id : Option String
  document_type_id : Option String
  warehouse_id : Option String
  document_date : Option Int
  entry_date_time : Option Int
  order_status : Option String
  total_volume : Option Int
  total_weight : Option Int
  cif_value : Option Int
  total_pallets : Option Int
  observation : Option String
  uploaded_documents : Option String
  products : Option (List UpdateProductData)
  deriving DecidableEq

/-- `prisma.entryOrder.findFirst({ where: { entry_order_no: orderNo } })`. -/
def findEntryOrder (s : Store) (orderNo : String) : Option EntryOrder :=
  s.entryOrders.find? (fun o => decide (o.entry_order_no = orderNo))

/-- `include: { products: true }` on an entry order. -/
def entryProductsOf (s : Store) (entryOrderId : String) :
    List EntryOrderProduct :=
  s.entryOrderProducts.filter (fun p => decide (p.entry_order_id = entryOrderId))

/-- If the update payload supplies a value keep it, else keep the old one
(`if (updateData.x !== undefined) allowedUpdates.x = ...`). -/
def updField (new : Option α) (old : Option α) : Option α :=
  match new with
  | some v => some v
  | none => old

/-- The `allowedUpdates` applied to the entry order: updatable fields plus
the unconditional reset of the review fields to PENDING / null. -/
def applyEntryOrderUpdates (u : EntryUpdateData) (o : EntryOrder) : EntryOrder :=
  { o with
    origin_id := updField u.origin_id o.origin_id,
    document_type_id := updField u.document_type_id o.document_type_id,
    warehouse_id := updField u.warehouse_id o.warehouse_id,
    document_date := updField u.document_date o.document_date,
    entry_date_time := updField u.entry_date_time o.entry_date_time,
    order_status := u.order_status.getD o.order_status,
    total_volume := updField u.total_volume o.total_volume,
    total_weight := updField u.total_weight o.total_weight,
    cif_value := updField u.cif_value o.cif_value,
    total_pallets := updField u.total_pallets o.total_pallets,
    observation := updField u.observation o.observation,
    uploaded_documents := updField u.uploaded_documents o.uploaded_documents,
    review_status := ReviewStatus.PENDING,
    review_comments := none,
    reviewed_by := none,
    reviewed_at := none }

/-- The `productUpdateData` fields applied to an existing or new
EntryOrderProduct row. -/
def applyProductFields (p : UpdateProductData) (r : EntryOrderProduct) :
    EntryOrderProduct :=
  { r with
    serial_number := p.serial_number,
    supplier_id := p.supplier_id,
    product_code := p.product_code,
    product_id := p.product_id,
    lot_series := p.lot_series,
    manufacturing_date := p.manufacturing_date,
    expiration_date := p.expiration_date,
    inventory_quantity := p.inventory_quantity,
    package_quantity := p.package_quantity,
    quantity_pallets := if p.quantity_pallets = 0 then none else some p.quantity_pallets,
    presentation := p.presentation.getD "CAJA",
    guide_number := p.guide_number,
    weight_kg := p.weight_kg,
    volume_m3 := if p.volume_m3 = 0 then none else some p.volume_m3,
    insured_value := if p.insured_value = 0 then none else some p.insured_value,
    temperature_range := p.temperature_range.getD "AMBIENTE",
    humidity := p.humidity,
    health_registration := p.health_registration }

/-- Per-product validation of the update loop. -/
def updateProductValidation (s : Store) (p : UpdateProductData) : Option String :=
  if p.product_id = "" ∨ p.product_code = "" ∨ p.inventory_quantity = 0 ∨
      p.package_quantity = 0 ∨ p.weight_kg = 0 then
    some ("Product missing required fields: product_id, product_code, " ++
      "inventory_quantity, package_quantity, weight_kg")
  else
    match findProduct s p.product_id with
    | none => some ("Product with ID " ++ p.product_id ++ " not found")
    | some existing =>
        if existing.product_code ≠ p.product_code then
          some ("Product code mismatch for " ++ p.product_id ++
            ". Expected " ++ existing.product_code ++ ", got " ++ p.product_code)
        else none

/-- One iteration of the update-or-create loop over the products payload. -/
def applyProductUpdate (s : Store) (entryOrderId : String)
    (p : UpdateProductData) : Store :=
  match p.entry_order_product_id with
  | some pid =>
      { s with entryOrderProducts := s.entryOrderProducts.map (fun r =>
          if r.entry_order_product_id = pid then applyProductFields p r else r) }
  | none =>
      let base : EntryOrderProduct :=
        mkEntryOrderProduct entryOrderId ("eop-" ++ toString s.nextId)
          { serial_number := p.serial_number, supplier_id := p.supplier_id,
            product_code := p.product_code, product_id := p.product_id,
            lot_series := p.lot_series,
            manufacturing_date := p.manufacturing_date,
            expiration_date := p.expiration_date,
            inventory_quantity := p.inventory_quantity,
            package_quantity := p.package_quantity,
            quantity_pallets := p.quantity_pallets,
            presentation := p.presentation, guide_number := p.guide_number,
            weight_kg := p.weight_kg, volume_m3 := p.volume_m3,
            insured_value := p.insured_value,
            temperature_range := p.temperature_range, humidity := p.humidity,
            health_registration := p.health_registration }
      { s with nextId := s.nextId + 1,
               entryOrderProducts := s.entryOrderProducts ++ [base] }

/-- The update-or-create loop: validate each product, then write it. -/
def processProductUpdates (entryOrderId : String) :
    Store → List UpdateProductData → Store × Except String Unit
  | s, [] => (s, Except.ok ())
  | s, p :: rest =>
      match updateProductValidation s p with
      | some e => (s, Except.error e)
      | none => processProductUpdates entryOrderId (applyProductUpdate s entryOrderId p) rest

/-- Body of the `updateEntryOrder` transaction: find the order, reject
unless its review status is NEEDS_REVISION and the caller created it, then
apply the field updates and the product delete/update/create passes. -/
def updateEntryOrderTx (s : Store) (orderNo : String) (u : EntryUpdateData)
    (userId : String) : Store × Except String EntryOrder :=
  match findEntryOrder s orderNo with
  | none => (s, Except.error "Entry order not found")
  | some existingOrder =>
      if existingOrder.review_status ≠ ReviewStatus.NEEDS_REVISION then
        (s, Except.error "Entry order can only be updated when status is NEEDS_REVISION")
      else if existingOrder.created_by ≠ userId then
        (s, Except.error "You can only update your own entry orders")
      else
        let updatedOrder := applyEntryOrderUpdates u existingOrder
        let s₁ := { s with entryOrders := s.entryOrders.map (fun o =>
          if o.entry_order_id = existingOrder.entry_order_id then updatedOrder else o) }
        match u.products with
        | none => (s₁, Except.ok updatedOrder)
        | some ps =>
            let incomingCodes :=
              (ps.map (fun p => p.product_code)).filter (fun c => decide (c ≠ ""))
            if duplicatesIn incomingCodes [] ≠ [] then
              (s₁, Except.error ("Duplicate product codes found in update request: " ++
                String.intercalate ", " (dedupFirst (duplicatesIn incomingCodes [])) ++
                ". Each product can only appear once in the update."))
            else
              let existingProducts := entryProductsOf s existingOrder.entry_order_id
              let existingCodes := existingProducts.map (fun p => p.product_code)
              let newProducts := ps.filter (fun p => decide (p.entry_order_product_id = none))
              let conflicting := newProducts.filter (fun p => decide (p.product_code ∈ existingCodes))
              if conflicting ≠ [] then
                (s₁, Except.error ("Product codes already exist in this entry order: " ++
                  String.intercalate ", " (conflicting.map (fun p => p.product_code)) ++
                  ". Cannot add duplicate products."))
              else
                let existingProductIds := existingProducts.map (fun p => p.entry_order_product_id)
                let updateProductIds := ps.filterMap (fun p => p.entry_order_product_id)
                let productsToDelete := existingProductIds.filter (fun i => decide (¬ i ∈ updateProductIds))
                let keep := fun (p : EntryOrderProduct) =>
                  decide (¬ p.entry_order_product_id ∈ productsToDelete)
                let s₂ := { s₁ with
                  entryOrderProducts := s₁.entryOrderProducts.filter keep }
                match processProductUpdates existingOrder.entry_order_id s₂ ps with
                | (s₃, Except.ok _) => (s₃, Except.ok updatedOrder)
                | (s₃, Except.error e) => (s₃, Except.error e)

/-- `updateEntryOrder`: the transaction wrapper around `updateEntryOrderTx`. -/
def updateEntryOrder (s : Store) (orderNo : String) (u : EntryUpdateData)
    (userId : String) : Store × Except String EntryOrder :=
  runTx (fun st => updateEntryOrderTx st orderNo u userId) s

/-! ### FIFO Selector -/

inductive QualityStatus
  | QUARANTINE
  | APPROVED
  | RETURNS
  | SAMPLES
  | REJECTED
  deriving DecidableEq

inductive LifecycleStatus
  | ACTIVE
  | DEPLETED
  deriving DecidableEq

structure Allocation where
  allocationId : Nat
  productId : String
  qualityStatus : QualityStatus
  lifecycleStatus : LifecycleStatus
  remainingQuantity : Nat
  expirationDate : Nat
  receivedAt : Nat
  deriving DecidableEq

/-- Modelled from the spec: the FIFO Selector sort key of §4.3
(`expirationDate` ascending, `receivedAt` ascending, `allocationId`
ascending for determinism); the selector's code is not in src/. -/
def fifoLE (a b : Allocation) : Bool :=
  decide (a.expirationDate < b.expirationDate ∨ (a.expirationDate = b.expirationDate ∧
    (a.receivedAt < b.receivedAt ∨ (a.receivedAt = b.receivedAt ∧
      a.allocationId ≤ b.allocationId))))

/-- Modelled from the spec: the candidate set of §4.3 — allocations of the
product with qualityStatus APPROVED, lifecycleStatus ACTIVE and
remainingQuantity > 0, in FIFO order. -/
def fifoCandidates (allocs : List Allocation) (productId : String) :
    List Allocation :=
  sortBy fifoLE (allocs.filter (fun a =>
    decide (a.productId = productId ∧
      a.qualityStatus = QualityStatus.APPROVED ∧
      a.lifecycleStatus = LifecycleStatus.ACTIVE ∧
      0 < a.remainingQuantity)))

/-- Modelled from the spec: greedily take `min(remaining, stillNeeded)` per
candidate in order until satisfied or candidates exhausted; the second
component is the shortfall. -/
def greedyTake : List Allocation → Nat → List (Nat × Nat) × Nat
  | _, 0 => ([], 0)
  | [], need => ([], need)
  | a :: rest, need =>
      let amount := min a.remainingQuantity need
      let r := greedyTake rest (need - amount)
      ((a.allocationId, amount) :: r.1, r.2)

/-- Modelled from the spec: `SuggestAllocation(productId, requestedQuantity)`
of §4.3 — the FIFO plan `[(allocationId, quantityToTake)]`, or the shortfall
when the candidates cannot satisfy the request. The selector's code is not
in src/; this follows the spec's words. -/
def SuggestAllocation (allocs : List Allocation) (productId : String)
    (requestedQuantity : Nat) : Except Nat (List (Nat × Nat)) :=
  let r := greedyTake (fifoCandidates allocs productId) requestedQuantity
  if r.2 = 0 then Except.ok r.1 else Except.error r.2

/-! ### Concrete fixtures used by witnesses and counterexamples -/

def emptyStore : Store :=
  { warehouses := [], warehouseCells := [], inventories := [],
    inventoryLogs := [], systemAuditLogs := [], clientUserAccounts := [],
    clientCellAssignments := [], products := [], orders := [],
    entryOrders := [], entryOrderProducts := [], nextId := 0 }

def cellA1 : WarehouseCell :=
  { id := "CA1", warehouse_id := "W1", row := "A", bay := 1, position := 1,
    kind := CellKind.NORMAL, status := CellStatus.AVAILABLE,
    is_passage := false, cell_role := CellRole.STANDARD, currentUsage := 0 }

def cellA2 : WarehouseCell :=
  { id := "CA2", warehouse_id := "W1", row := "A", bay := 1, position := 2,
    kind := CellKind.NORMAL, status := CellStatus.AVAILABLE,
    is_passage := false, cell_role := CellRole.STANDARD, currentUsage := 0 }

def cellPassage : WarehouseCell :=
  { id := "CP1", warehouse_id := "W1", row := "A", bay := 2, position := 1,
    kind := CellKind.NORMAL, status := CellStatus.AVAILABLE,
    is_passage := true, cell_role := CellRole.STANDARD, currentUsage := 0 }

def demoStore : Store :=
  { emptyStore with
    warehouses := ["W1"],
    warehouseCells := [cellA2, cellPassage, cellA1],
    clientUserAccounts := [{ user_id := "CU1", client_id := "CL1", is_active := true }],
    clientCellAssignments := [{ cell_id := "CA1", client_id := "CL1", is_active := true }] }

def demoEntryOrder : EntryOrder :=
  { entry_order_id := "E1", order_id := "O1", entry_order_no := "EO-1",
    origin_id := none, document_type_id := none, registration_date := none,
    document_date := none, entry_date_time := none, created_by := "CU1",
    order_status := "REVISION", total_volume := none, total_weight := none,
    cif_value := none, total_pallets := none, observation := none,
    uploaded_documents := none, review_status := ReviewStatus.APPROVED,
    review_comments := none, reviewed_by := some "AD1", reviewed_at := some 7,
    warehouse_id := none }

def eoStore : Store := { emptyStore with entryOrders := [demoEntryOrder] }

def emptyUpdate : EntryUpdateData :=
  { origin_id := none, document_type_id := none, warehouse_id := none,
    document_date := none, entry_date_time := none, order_status := none,
    total_volume := none, total_weight := none, cif_value := none,
    total_pallets := none, observation := none, uploaded_documents := none,
    products := none }

def demoEntryProduct : EntryProductData :=
  { serial_number := none, supplier_id := none, product_code := "PC1",
    product_id := "P1", lot_series := none, manufacturing_date := none,
    expiration_date := none, inventory_quantity := 5, package_quantity := 5,
    quantity_pallets := 0, presentation := none, guide_number := none,
    weight_kg := 10, volume_m3 := 0, insured_value := 0,
    temperature_range := none, humidity := none, health_registration := none }

def demoDupEntryData : EntryData :=
  { organisation_id := "ORG1", created_by := "CU1", priority := none,
    entry_order_no := "EO-2", origin_id := none, document_type_id := none,
    registration_date := none, document_date := none, entry_date_time := none,
    order_status := none, total_volume := none, total_weight := none,
    cif_value := none, total_pallets := none, observation := none,
    uploaded_documents := none, warehouse_id := none,
    products := some [demoEntryProduct, demoEntryProduct] }

def allocA : Allocation :=
  { allocationId := 1, productId := "PROD", qualityStatus := QualityStatus.APPROVED,
    lifecycleStatus := LifecycleStatus.ACTIVE, remainingQuantity := 50,
    expirationDate := 20250101, receivedAt := 10 }

def allocB : Allocation :=
  { allocationId := 2, productId := "PROD", qualityStatus := QualityStatus.APPROVED,
    lifecycleStatus := LifecycleStatus.ACTIVE, remainingQuantity := 100,
    expirationDate := 20250601, receivedAt := 20 }

/-! ## Helper lemmas -/

theorem runTx_snd {α : Type} (body : Store → Store × Except String α) (s : Store) :
    (runTx body s).2 = (body s).2 := by
  unfold runTx
  rcases body s with ⟨s₁, r⟩
  cases r <;> rfl

theorem runTx_ok {α : Type} (body : Store → Store × Except String α)
    (s s' : Store) (r : α) (h : runTx body s = (s', Except.ok r)) :
    body s = (s', Except.ok r) := by
  unfold runTx at h
  split at h
  · next heq => exact heq.trans h
  · next heq => simp only [Prod.mk.injEq] at h; exact Except.noConfusion h.2

theorem runTx_error {α : Type} (body : Store → Store × Except String α)
    (s s' : Store) (e : String) (h : runTx body s = (s', Except.error e)) :
    s' = s ∧ (body s).2 = Except.error e := by
  unfold runTx at h
  split at h
  · next heq => simp only [Prod.mk.injEq] at h; exact Except.noConfusion h.2
  · next heq =>
      simp only [Prod.mk.injEq] at h
      refine ⟨h.1.symm, ?_⟩
      rw [heq]
      exact h.2

theorem mem_insertBy {α : Type} (le : α → α → Bool) (a x : α) (l : List α) :
    x ∈ insertBy le a l ↔ x = a ∨ x ∈ l := by
  induction l with
  | nil => simp [insertBy]
  | cons b bs ih =>
      simp only [insertBy]
      split
      · simp [List.mem_cons]
      · simp only [List.mem_cons, ih]
        tauto

theorem perm_insertBy {α : Type} (le : α → α → Bool) (a : α) (l : List α) :
    List.Perm (insertBy le a l) (a :: l) := by
  induction l with
  | nil => simp [insertBy]
  | cons b bs ih =>
      simp only [insertBy]
      split
      · exact List.Perm.refl _
      · exact (List.Perm.cons b ih).trans (List.Perm.swap a b bs)

theorem perm_sortBy {α : Type} (le : α → α → Bool) (l : List α) :
    List.Perm (sortBy le l) l := by
  induction l with
  | nil => exact List.Perm.refl _
  | cons a as ih =>
      exact (perm_insertBy le a (sortBy le as)).trans (List.Perm.cons a ih)

theorem mem_sortBy {α : Type} (le : α → α → Bool) (x : α) (l : List α) :
    x ∈ sortBy le l ↔ x ∈ l :=
  (perm_sortBy le l).mem_iff

theorem length_sortBy {α : Type} (le : α → α → Bool) (l : List α) :
    (sortBy le l).length = l.length :=
  (perm_sortBy le l).length_eq

theorem assignPalletsTx_ok (s : Store) (wid row : String) (n : Int)
    (pid uid : String) (s' : Store) (asg : List WarehouseCell)
    (h : assignPalletsTx s wid row n pid uid = (s', Except.ok asg)) :
    asg = (freeSlotsIn s wid row).take n.toNat ∧
    s' = asg.foldl (storePallet wid pid uid row) s ∧
    wid ∈ s.warehouses ∧ row ≠ "" ∧ 1 ≤ n ∧
    n ≤ ((freeSlotsIn s wid row).length : Int) := by
  simp only [assignPalletsTx] at h
  split_ifs at h with h1 h2 h3 h4
  · simp only [Prod.mk.injEq] at h; exact Except.noConfusion h.2
  · simp only [Prod.mk.injEq] at h; exact Except.noConfusion h.2
  · simp only [Prod.mk.injEq] at h; exact Except.noConfusion h.2
  · simp only [Prod.mk.injEq, Except.ok.injEq] at h
    refine ⟨h.2.symm, ?_, h1, h2, by omega, by omega⟩
    rw [← h.2]
    exact h.1.symm
  · simp only [Prod.mk.injEq] at h; exact Except.noConfusion h.2

theorem assignPalletsTx_error_state (s : Store) (wid row : String) (n : Int)
    (pid uid : String) (s₁ : Store) (e : String)
    (h : assignPalletsTx s wid row n pid uid = (s₁, Except.error e)) :
    s₁ = s := by
  simp only [assignPalletsTx] at h
  split_ifs at h <;> simp only [Prod.mk.injEq] at h
  on_goal 4 => exact Except.noConfusion h.2
  all_goals exact h.1.symm

/-- C2: atomicity of allocation — on every failing input the transaction
body of `assignPallets` throws before any write, so the store after the
failed call (with or without rollback) equals the store before it: no
Inventory row, no InventoryLog row and no WarehouseCell change survives. -/
theorem assignPallets_atomic (s : Store) (wid row : String) (n : Int)
    (pid uid : String) (s₁ : Store) (e : String)
    (h : assignPalletsTx s wid row n pid uid = (s₁, Except.error e)) :
    s₁.inventories = s.inventories ∧
    s₁.inventoryLogs = s.inventoryLogs ∧
    s₁.warehouseCells = s.warehouseCells ∧
    assignPallets s wid row n pid uid = (s, Except.error e) := by
  have hs : s₁ = s := assignPalletsTx_error_state s wid row n pid uid s₁ e h
  subst hs
  refine ⟨rfl, rfl, rfl, ?_⟩
  simp only [assignPallets, runTx, h]

/-- C2 witness: calling `assignPallets` on an unknown warehouse fails and
leaves the demo store untouched. -/
theorem assignPallets_atomic_witness :
    assignPallets demoStore "W2" "A" 1 "P1" "U1" =
      (demoStore, Except.error "Warehouse not found") :=
  (assignPallets_atomic demoStore "W2" "A" 1 "P1" "U1" demoStore
    "Warehouse not found" (by decide)).2.2.2

/-- C3: passage cells are never allocatable — every cell assigned by a
successful `assignPallets` call has `is_passage = false`, `kind = NORMAL`
and prior `status = AVAILABLE`. -/
theorem assignPallets_no_passage (s : Store) (wid row : String) (n : Int)
    (pid uid : String) (s' : Store) (asg : List WarehouseCell)
    (h : assignPallets s wid row n pid uid = (s', Except.ok asg)) :
    ∀ c ∈ asg, c.is_passage = false ∧ c.kind = CellKind.NORMAL ∧
      c.status = CellStatus.AVAILABLE := by
  have htx := runTx_ok _ s s' asg h
  obtain ⟨hasg, -, -, -, -, -⟩ :=
    assignPalletsTx_ok s wid row n pid uid s' asg htx
  intro c hc
  rw [hasg] at hc
  have hc₁ : c ∈ freeSlotsIn s wid row := (List.take_sublist _ _).subset hc
  rw [freeSlotsIn, mem_sortBy, List.mem_filter] at hc₁
  have hp := hc₁.2
  rw [isFreeSlot, decide_eq_true_eq] at hp
  exact ⟨hp.2.2.2.2, hp.2.2.1, hp.2.2.2.1⟩

/-- C3 witness: the demo call assigns exactly cell CA1, which is a normal,
available, non-passage cell. -/
theorem assignPallets_no_passage_witness :
    cellA1.is_passage = false ∧ cellA1.kind = CellKind.NORMAL ∧
      cellA1.status = CellStatus.AVAILABLE :=
  assignPallets_no_passage demoStore "W1" "A" 1 "P1" "U1"
    (assignPallets demoStore "W1" "A" 1 "P1" "U1").1 [cellA1]
    (by decide) cellA1 (by decide)

/-- C7: raises-iff for allocation capacity — `assignPallets` throws exactly
when the warehouse is unknown, the row is missing, `palletCount < 1`, or
the row has fewer free (AVAILABLE, NORMAL, non-passage) slots than
requested; in the insufficient-slots case the message reports both the
requested and the found count. -/
theorem assignPallets_error_iff (s : Store) (wid row : String) (n : Int)
    (pid uid : String) :
    (isErr (assignPallets s wid row n pid uid).2 = true ↔
      (¬ wid ∈ s.warehouses ∨ row = "" ∨ n < 1 ∨
        ((freeSlotsIn s wid row).length : Int) < n)) ∧
    (wid ∈ s.warehouses → row ≠ "" → 1 ≤ n →
      ((freeSlotsIn s wid row).length : Int) < n →
      (assignPallets s wid row n pid uid).2 = Except.error
        ("Not enough free slots in row " ++ row ++ ": requested " ++
          toString n ++ ", found " ++ toString (freeSlotsIn s wid row).length)) := by
  have hsnd : (assignPallets s wid row n pid uid).2 =
      (assignPalletsTx s wid row n pid uid).2 := runTx_snd _ s
  constructor
  · rw [hsnd]
    simp only [assignPalletsTx]
    split_ifs with h1 h2 h3 h4 <;> simp only [isErr] <;> simp_all
  · intro k1 k2 k3 k4
    rw [hsnd]
    simp only [assignPalletsTx]
    split_ifs <;> first | rfl | omega

/-- C7 witness: with one free slot in row A and a request for 3 pallets the
call fails with the message naming both counts. -/
theorem assignPallets_error_iff_witness :
    (assignPallets demoStore "W1" "B" 3 "P1" "U1").2 = Except.error
      ("Not enough free slots in row " ++ "B" ++ ": requested " ++
        toString (3 : Int) ++ ", found " ++
        toString (freeSlotsIn demoStore "W1" "B").length) :=
  (assignPallets_error_iff demoStore "W1" "B" 3 "P1" "U1").2
    (by decide) (by decide) (by decide) (by decide)

theorem foldl_storePallet_inventories (wid pid uid row : String)
    (L : List WarehouseCell) (s : Store) :
    (L.foldl (storePallet wid pid uid row) s).inventories
      = s.inventories ++ L.map (mkPalletInventory wid pid) := by
  induction L generalizing s with
  | nil => simp
  | cons a as ih =>
      simp only [List.foldl_cons, List.map_cons, ih, storePallet]
      simp [List.append_assoc]

theorem foldl_storePallet_logs (wid pid uid row : String)
    (L : List WarehouseCell) (s : Store) :
    (L.foldl (storePallet wid pid uid row) s).inventoryLogs
      = s.inventoryLogs ++ L.map (mkPalletLog wid pid uid row) := by
  induction L generalizing s with
  | nil => simp
  | cons a as ih =>
      simp only [List.foldl_cons, List.map_cons, ih, storePallet]
      simp [List.append_assoc]

theorem foldl_storePallet_cells (wid pid uid row : String)
    (L : List WarehouseCell) (s : Store) :
    (L.foldl (storePallet wid pid uid row) s).warehouseCells
      = L.foldl (fun cs slot => bumpCells cs slot.id) s.warehouseCells := by
  induction L generalizing s with
  | nil => rfl
  | cons a as ih =>
      simp only [List.foldl_cons, ih, storePallet]

theorem getCell_bumpCells_same (cells : List WarehouseCell) (cid : String) :
    getCell (bumpCells cells cid) cid = (getCell cells cid).map bumpCell := by
  induction cells with
  | nil => rfl
  | cons c cs ih =>
      by_cases h : c.id = cid
      · simp [bumpCells, getCell, bumpCell, h, List.find?_cons_of_pos]
      · simp only [bumpCells, List.map_cons, if_neg h]
        rw [getCell, getCell, List.find?_cons_of_neg, List.find?_cons_of_neg]
        · rw [← bumpCells]
          exact ih
        · simp [h]
        · simp [h]

theorem getCell_bumpCells_ne (cells : List WarehouseCell) (cid cid' : String)
    (h : cid' ≠ cid) :
    getCell (bumpCells cells cid') cid = getCell cells cid := by
  induction cells with
  | nil => rfl
  | cons c cs ih =>
      by_cases hc : c.id = cid'
      · have hne : ¬ (bumpCell c).id = cid := by
          show ¬ c.id = cid
          rw [hc]
          exact h
        simp only [bumpCells, List.map_cons, if_pos hc]
        rw [getCell, List.find?_cons_of_neg, getCell, List.find?_cons_of_neg]
        · rw [← bumpCells]
          exact ih
        · simp only [decide_eq_true_eq]
          rw [hc]
          exact h
        · simp only [decide_eq_true_eq]
          exact hne
      · simp only [bumpCells, List.map_cons, if_neg hc]
        by_cases hcid : c.id = cid
        · rw [getCell, List.find?_cons_of_pos, getCell, List.find?_cons_of_pos]
          · simp [hcid]
          · simp [hcid]
        · rw [getCell, List.find?_cons_of_neg, getCell, List.find?_cons_of_neg]
          · rw [← bumpCells]
            exact ih
          · simp [hcid]
          · simp [hcid]

theorem getCell_foldl_bump_of_not_mem (L : List WarehouseCell)
    (cells : List WarehouseCell) (cid : String)
    (h : ∀ slot ∈ L, slot.id ≠ cid) :
    getCell (L.foldl (fun cs slot => bumpCells cs slot.id) cells) cid
      = getCell cells cid := by
  induction L generalizing cells with
  | nil => rfl
  | cons a as ih =>
      simp only [List.foldl_cons]
      rw [ih _ (fun slot hs => h slot (List.mem_cons_of_mem a hs))]
      exact getCell_bumpCells_ne cells cid a.id (h a (List.mem_cons_self a as))

theorem getCell_foldl_bump_of_mem (L : List WarehouseCell)
    (cells : List WarehouseCell) (slot : WarehouseCell)
    (hmem : slot ∈ L) (hnd : (L.map WarehouseCell.id).Nodup) :
    getCell (L.foldl (fun cs x => bumpCells cs x.id) cells) slot.id
      = (getCell cells slot.id).map bumpCell := by
  induction L generalizing cells with
  | nil => exact absurd hmem (List.not_mem_nil slot)
  | cons a as ih =>
      simp only [List.map_cons, List.nodup_cons] at hnd
      rcases List.mem_cons.mp hmem with heq | hmem'
      · subst heq
        simp only [List.foldl_cons]
        rw [getCell_foldl_bump_of_not_mem, getCell_bumpCells_same]
        intro x hx
        intro hxeq
        exact hnd.1 (hxeq ▸ List.mem_map_of_mem WarehouseCell.id hx)
      · simp only [List.foldl_cons]
        rw [ih _ hmem' hnd.2, getCell_bumpCells_ne]
        intro haeq
        exact hnd.1 (haeq ▸ List.mem_map_of_mem WarehouseCell.id hmem')

theorem getCell_of_mem_nodup (cells : List WarehouseCell) (c : WarehouseCell)
    (hc : c ∈ cells) (hnd : (cells.map WarehouseCell.id).Nodup) :
    getCell cells c.id = some c := by
  induction cells with
  | nil => exact absurd hc (List.not_mem_nil c)
  | cons d ds ih =>
      simp only [List.map_cons, List.nodup_cons] at hnd
      rcases List.mem_cons.mp hc with heq | hmem
      · subst heq
        rw [getCell, List.find?_cons_of_pos]
        simp
      · by_cases hd : d.id = c.id
        · exfalso
          exact hnd.1 (hd ▸ List.mem_map_of_mem WarehouseCell.id hmem)
        · rw [getCell, List.find?_cons_of_neg]
          · exact ih hmem hnd.2
          · simp [hd]

/-- C4: allocation effects and audit pairing — a successful
`assignPallets(w, row, n, p, u)` creates exactly `n` Inventory rows of
quantity 1 and status AVAILABLE, appends exactly one ENTRY InventoryLog of
`quantity_change = 1` per created row (`n` in total), and bumps each of the
`n` assigned cells by exactly one usage unit, setting it OCCUPIED. -/
theorem assignPallets_effects (s : Store) (wid row : String) (n : Int)
    (pid uid : String) (s' : Store) (asg : List WarehouseCell)
    (hnd : (s.warehouseCells.map WarehouseCell.id).Nodup)
    (h : assignPallets s wid row n pid uid = (s', Except.ok asg)) :
    (asg.length : Int) = n ∧
    s'.inventories = s.inventories ++ asg.map (mkPalletInventory wid pid) ∧
    (∀ r ∈ asg.map (mkPalletInventory wid pid),
      r.quantity = 1 ∧ r.status = InventoryStatus.AVAILABLE) ∧
    s'.inventoryLogs = s.inventoryLogs ++ asg.map (mkPalletLog wid pid uid row) ∧
    (∀ e ∈ asg.map (mkPalletLog wid pid uid row),
      e.quantity_change = 1 ∧ e.movement_type = MovementType.ENTRY) ∧
    (∀ slot ∈ asg, getCell s'.warehouseCells slot.id = some (bumpCell slot)) := by
  have htx := runTx_ok _ s s' asg h
  obtain ⟨hasg, hs', -, -, hn1, hnle⟩ :=
    assignPalletsTx_ok s wid row n pid uid s' asg htx
  have hfilnd : ((s.warehouseCells.filter (isFreeSlot wid row)).map
      WarehouseCell.id).Nodup :=
    hnd.sublist (List.Sublist.map WarehouseCell.id (List.filter_sublist _))
  have hsortnd : ((freeSlotsIn s wid row).map WarehouseCell.id).Nodup := by
    rw [freeSlotsIn]
    exact ((perm_sortBy slotLE _).map WarehouseCell.id).nodup_iff.mpr hfilnd
  have hasgnd : (asg.map WarehouseCell.id).Nodup := by
    rw [hasg]
    exact hsortnd.sublist (List.Sublist.map WarehouseCell.id (List.take_sublist _ _))
  have hasgsub : ∀ slot ∈ asg, slot ∈ s.warehouseCells := by
    intro slot hs
    rw [hasg] at hs
    have h₁ : slot ∈ freeSlotsIn s wid row := (List.take_sublist _ _).subset hs
    rw [freeSlotsIn, mem_sortBy, List.mem_filter] at h₁
    exact h₁.1
  refine ⟨?_, ?_, ?_, ?_, ?_, ?_⟩
  · rw [hasg, List.length_take]
    have hmin : n.toNat ≤ (freeSlotsIn s wid row).length := by omega
    rw [min_eq_left hmin]
    omega
  · rw [hs']
    exact foldl_storePallet_inventories wid pid uid row asg s
  · intro r hr
    rw [List.mem_map] at hr
    obtain ⟨slot, -, hmk⟩ := hr
    rw [← hmk]
    exact ⟨rfl, rfl⟩
  · rw [hs']
    exact foldl_storePallet_logs wid pid uid row asg s
  · intro e he
    rw [List.mem_map] at he
    obtain ⟨slot, -, hmk⟩ := he
    rw [← hmk]
    exact ⟨rfl, rfl⟩
  · intro slot hslot
    rw [hs', foldl_storePallet_cells,
      getCell_foldl_bump_of_mem asg s.warehouseCells slot hslot hasgnd,
      getCell_of_mem_nodup s.warehouseCells slot (hasgsub slot hslot) hnd]
    rfl

/-- C4 witness: the demo call bumps cell CA1 to usage 1 and OCCUPIED. -/
theorem assignPallets_effects_witness :
    getCell (assignPallets demoStore "W1" "A" 1 "P1" "U1").1.warehouseCells
        "CA1" = some (bumpCell cellA1) := by
  have h := assignPallets_effects demoStore "W1" "A" 1 "P1" "U1"
    (assignPallets demoStore "W1" "A" 1 "P1" "U1").1 [cellA1]
    (by decide) (by decide)
  exact h.2.2.2.2.2 cellA1 (by decide)

/-- C6: client scope restriction on cell reads — a user whose role is
neither ADMIN nor WAREHOUSE_INCHARGE sees only cells with an active
clientCellAssignment to one of their active client accounts, and sees
nothing when they have no active client account; cells assigned only to
other clients never appear. -/
theorem getAllWarehouseCells_client_scope (s : Store) (fw : Option String)
    (uid role : String) (hrole1 : role ≠ "ADMIN")
    (hrole2 : role ≠ "WAREHOUSE_INCHARGE") :
    (activeClientIdsOf s uid = [] →
      getAllWarehouseCells s fw (some uid) (some role) = []) ∧
    (∀ c ∈ getAllWarehouseCells s fw (some uid) (some role),
      ∃ a ∈ s.clientCellAssignments, a.cell_id = c.id ∧ a.is_active = true ∧
        a.client_id ∈ activeClientIdsOf s uid) := by
  have hclient : (decide (¬ (role = "ADMIN" ∨ role = "WAREHOUSE_INCHARGE"))) = true := by
    simp [hrole1, hrole2]
  constructor
  · intro hempty
    simp only [getAllWarehouseCells, hclient]
    rw [hempty]
    simp
  · intro c hc
    simp only [getAllWarehouseCells, hclient] at hc
    by_cases hempty : (activeClientIdsOf s uid).isEmpty
    · rw [if_pos hempty] at hc
      exact absurd hc (List.not_mem_nil c)
    · rw [if_neg hempty] at hc
      rw [mem_sortBy, List.mem_filter] at hc
      have hp := hc.2
      rw [Bool.and_eq_true] at hp
      have hass := hp.2
      rw [hasActiveAssignmentTo, List.any_eq_true] at hass
      obtain ⟨a, ha, hcond⟩ := hass
      rw [decide_eq_true_eq] at hcond
      exact ⟨a, ha, hcond.1, hcond.2.1, hcond.2.2⟩

/-- C6 witness: user CU2 has no active client account, so a CLIENT-role
read of the demo store returns no cells. -/
theorem getAllWarehouseCells_client_scope_witness :
    getAllWarehouseCells demoStore none (some "CU2") (some "CLIENT") = [] :=
  (getAllWarehouseCells_client_scope demoStore none "CU2" "CLIENT"
    (by decide) (by decide)).1 (by decide)

/-- C1: FIFO correctness of `SuggestAllocation` — with candidates
A(expiry 2025-01-01, remaining 50) and B(expiry 2025-06-01, remaining 100),
both APPROVED and ACTIVE, requesting 80 yields the plan
[(A, 50), (B, 30)], for either input order of the allocation list. -/
theorem suggestAllocation_fifo_example :
    SuggestAllocation [allocB, allocA] "PROD" 80 =
      Except.ok [(1, 50), (2, 30)] ∧
    SuggestAllocation [allocA, allocB] "PROD" 80 =
      Except.ok [(1, 50), (2, 30)] := by
  constructor <;> rfl

theorem parseRole_mem_validRoles (r : String) (x : CellRole)
    (h : parseRole r = some x) : r ∈ validRoles := by
  simp only [parseRole] at h
  split_ifs at h <;>
    first
    | exact Option.noConfusion h
    | simp [validRoles, *]

theorem roleToString_parseRole (r : String) (x : CellRole)
    (h : parseRole r = some x) : roleToString x = r := by
  simp only [parseRole] at h
  split_ifs at h <;>
    first
    | exact Option.noConfusion h
    | (cases Option.some.inj h; simp [roleToString, *])

theorem parseRole_roleToString (x : CellRole) :
    parseRole (roleToString x) = some x := by
  cases x <;> rfl

theorem getCell_map_setRole (cells : List WarehouseCell) (cid : String)
    (r : CellRole) :
    getCell (cells.map (fun c =>
        if c.id = cid then { c with cell_role := r } else c)) cid
      = (getCell cells cid).map (fun c => { c with cell_role := r }) := by
  induction cells with
  | nil => rfl
  | cons c cs ih =>
      by_cases h : c.id = cid
      · simp only [List.map_cons, if_pos h]
        rw [getCell, List.find?_cons_of_pos, getCell, List.find?_cons_of_pos]
        · simp
        · simp [h]
        · simp [h]
      · simp only [List.map_cons, if_neg h]
        rw [getCell, List.find?_cons_of_neg, getCell, List.find?_cons_of_neg]
        · exact ih
        · simp [h]
        · simp [h]

/-- C8 counterexample: the accepted role set is not the four-element set
{standard, rejected, samples, returns} — an ADMIN call with role DAMAGED on
a STANDARD cell is accepted and leaves the cell with role DAMAGED, which is
outside that set. -/
theorem changeCellQualityPurpose_damaged_accepted :
    (changeCellQualityPurpose demoStore "CA1" "DAMAGED" "ADMIN" "U1" none).2 =
      Except.ok { message := "Cell quality purpose changed from Regular storage to Damaged products",
                  changed := true } ∧
    getCell (changeCellQualityPurpose demoStore "CA1" "DAMAGED" "ADMIN" "U1"
        none).1.warehouseCells "CA1" = some { cellA1 with cell_role := CellRole.DAMAGED } ∧
    ¬ "DAMAGED" ∈ ["STANDARD", "REJECTED", "SAMPLES", "RETURNS"] := by
  refine ⟨by decide, by decide, by decide⟩

/-- C8 (amended): closed cell-role set — the roles a cell can hold or be
changed to are exactly the six of the CellRole enum; every accepted call to
`changeCellQualityPurpose` has its role string in `validRoles` =
[STANDARD, REJECTED, SAMPLES, RETURNS, DAMAGED, EXPIRED]. -/
theorem changeCellQualityPurpose_role_closed (s : Store)
    (cid newCellRole userRole userId : String) (reason : Option String)
    (s' : Store) (res : RoleChangeResult)
    (h : changeCellQualityPurpose s cid newCellRole userRole userId reason
      = (s', Except.ok res)) :
    newCellRole ∈ validRoles := by
  simp only [changeCellQualityPurpose] at h
  split_ifs at h with h1
  · rcases hp : parseRole newCellRole with - | nr
    · rw [hp] at h
      simp only [roleChangeError, Prod.mk.injEq] at h
      exact Except.noConfusion h.2
    · exact parseRole_mem_validRoles newCellRole nr hp
  · simp only [roleChangeError, Prod.mk.injEq] at h
    exact Except.noConfusion h.2

/-- C8 (amended) witness: DAMAGED is accepted, hence among the six valid
roles. -/
theorem changeCellQualityPurpose_role_closed_witness :
    "DAMAGED" ∈ validRoles :=
  changeCellQualityPurpose_role_closed demoStore "CA1" "DAMAGED" "ADMIN" "U1"
    none (changeCellQualityPurpose demoStore "CA1" "DAMAGED" "ADMIN" "U1" none).1
    { message := "Cell quality purpose changed from Regular storage to Damaged products",
      changed := true }
    (by decide)

/-- C9: idempotence of the cell role change — when the cell already holds
the requested role the call writes nothing, appends no audit entry and
returns `changed = false`; consequently a second identical call after a
successful change leaves the store (and its audit log) exactly as after the
first call. -/
theorem changeCellQualityPurpose_idempotent (s s' : Store)
    (cid newRole uid : String) (reason : Option String) (c : WarehouseCell)
    (res : RoleChangeResult) :
    ((getCell s.warehouseCells cid = some c ∧ roleToString c.cell_role = newRole) →
      changeCellQualityPurpose s cid newRole "ADMIN" uid reason =
        (s, Except.ok { message := "Cell is already set to " ++ newRole,
                        changed := false })) ∧
    ((changeCellQualityPurpose s cid newRole "ADMIN" uid reason
        = (s', Except.ok res) ∧ res.changed = true) →
      changeCellQualityPurpose s' cid newRole "ADMIN" uid reason =
        (s', Except.ok { message := "Cell is already set to " ++ newRole,
                         changed := false })) := by
  constructor
  · rintro ⟨h1, h2⟩
    subst h2
    simp only [changeCellQualityPurpose, eq_self_iff_true, if_true,
      parseRole_roleToString, h1]
  · rintro ⟨h, hch⟩
    simp only [changeCellQualityPurpose, eq_self_iff_true, if_true] at h
    rcases hp : parseRole newRole with - | nr
    · simp only [hp, roleChangeError, Prod.mk.injEq] at h
      exact Except.noConfusion h.2
    · simp only [hp] at h
      rcases hg : getCell s.warehouseCells cid with - | cur
      · simp only [hg, roleChangeError, Prod.mk.injEq] at h
        exact Except.noConfusion h.2
      · simp only [hg] at h
        split_ifs at h with hsame
        · simp only [Prod.mk.injEq, Except.ok.injEq] at h
          rw [← h.2] at hch
          exact absurd hch (by simp)
        · simp only [Prod.mk.injEq, Except.ok.injEq] at h
          have hcells : s'.warehouseCells = s.warehouseCells.map (fun c =>
              if c.id = cid then { c with cell_role := nr } else c) := by
            rw [← h.1]
          have hget : getCell s'.warehouseCells cid
              = some { cur with cell_role := nr } := by
            rw [hcells, getCell_map_setRole, hg]
            rfl
          simp only [changeCellQualityPurpose, eq_self_iff_true, if_true,
            hp, hget]

/-- C9 witness: requesting STANDARD on the STANDARD cell CA1 is a no-op
returning changed = false. -/
theorem changeCellQualityPurpose_idempotent_witness :
    changeCellQualityPurpose demoStore "CA1" "STANDARD" "ADMIN" "U1" none =
      (demoStore, Except.ok { message := "Cell is already set to " ++ "STANDARD",
                              changed := false }) :=
  (changeCellQualityPurpose_idempotent demoStore demoStore "CA1" "STANDARD"
    "U1" none cellA1 { message := "", changed := false }).1
    ⟨by decide, by decide⟩

theorem runTx_of_snd_error {α : Type} (body : Store → Store × Except String α)
    (s : Store) (e : String) (h : (body s).2 = Except.error e) :
    runTx body s = (s, Except.error e) := by
  rcases hbb : body s with ⟨sb, rb⟩
  rw [hbb] at h
  replace h : rb = Except.error e := h
  subst h
  simp only [runTx, hbb]

theorem updateEntryOrderTx_not_needs_revision (s : Store) (orderNo : String)
    (u : EntryUpdateData) (userId : String) (o : EntryOrder)
    (ho : findEntryOrder s orderNo = some o)
    (hrs : o.review_status ≠ ReviewStatus.NEEDS_REVISION) :
    updateEntryOrderTx s orderNo u userId =
      (s, Except.error "Entry order can only be updated when status is NEEDS_REVISION") := by
  simp only [updateEntryOrderTx, ho]
  rw [if_pos hrs]

theorem updateEntryOrderTx_owner_guard (s : Store) (orderNo : String)
    (u : EntryUpdateData) (userId : String) (o : EntryOrder)
    (ho : findEntryOrder s orderNo = some o) (hneq : o.created_by ≠ userId) :
    updateEntryOrderTx s orderNo u userId =
      (s, Except.error "Entry order can only be updated when status is NEEDS_REVISION") ∨
    updateEntryOrderTx s orderNo u userId =
      (s, Except.error "You can only update your own entry orders") := by
  simp only [updateEntryOrderTx, ho]
  by_cases hrs : o.review_status ≠ ReviewStatus.NEEDS_REVISION
  · left
    rw [if_pos hrs]
  · right
    rw [if_neg hrs, if_pos hneq]

/-- C5: approved entry orders are immutable — when the found order's review
status is not NEEDS_REVISION (e.g. APPROVED or REJECTED), `updateEntryOrder`
throws and leaves the whole store (the order, its products, its review
fields) unchanged; and whenever the caller is not the order's creator the
call throws and changes nothing. -/
theorem updateEntryOrder_guards (s : Store) (orderNo : String)
    (u : EntryUpdateData) (userId : String) (o : EntryOrder)
    (ho : findEntryOrder s orderNo = some o) :
    (o.review_status ≠ ReviewStatus.NEEDS_REVISION →
      updateEntryOrder s orderNo u userId =
        (s, Except.error "Entry order can only be updated when status is NEEDS_REVISION")) ∧
    (o.created_by ≠ userId →
      (updateEntryOrder s orderNo u userId).1 = s ∧
      isErr (updateEntryOrder s orderNo u userId).2 = true) := by
  constructor
  · intro hrs
    have htx := updateEntryOrderTx_not_needs_revision s orderNo u userId o ho hrs
    simp only [updateEntryOrder]
    exact runTx_of_snd_error _ s _ (by rw [htx])
  · intro hneq
    rcases updateEntryOrderTx_owner_guard s orderNo u userId o ho hneq with htx | htx <;>
      · simp only [updateEntryOrder]
        rw [runTx_of_snd_error _ s _ (by rw [htx])]
        exact ⟨rfl, rfl⟩

/-- C5 witness: the APPROVED demo order EO-1 rejects an update by its own
creator, unchanged. -/
theorem updateEntryOrder_guards_witness :
    updateEntryOrder eoStore "EO-1" emptyUpdate "CU1" =
      (eoStore, Except.error "Entry order can only be updated when status is NEEDS_REVISION") :=
  (updateEntryOrder_guards eoStore "EO-1" emptyUpdate "CU1" demoEntryOrder
    (by decide)).1 (by decide)

theorem duplicatesIn_eq_nil_iff (l : List String) :
    ∀ seen, (duplicatesIn l seen = [] ↔ l.Nodup ∧ ∀ x ∈ l, x ∉ seen) := by
  induction l with
  | nil => intro seen; simp [duplicatesIn]
  | cons c rest ih =>
      intro seen
      simp only [duplicatesIn]
      by_cases hc : c ∈ seen
      · rw [if_pos hc]
        constructor
        · intro h
          exact absurd h (List.cons_ne_nil c _)
        · rintro ⟨-, hall⟩
          exact absurd hc (hall c (List.mem_cons_self c rest))
      · rw [if_neg hc, ih]
        constructor
        · rintro ⟨hnd, hall⟩
          have hcrest : c ∉ rest := fun hmem =>
            (hall c hmem) (List.mem_append_right _ (List.mem_singleton_self c))
          refine ⟨List.nodup_cons.mpr ⟨hcrest, hnd⟩, ?_⟩
          intro x hx
          rcases List.mem_cons.mp hx with rfl | hx'
          · exact hc
          · intro hxs
            exact (hall x hx') (List.mem_append_left _ hxs)
        · rintro ⟨hnd, hall⟩
          rw [List.nodup_cons] at hnd
          refine ⟨hnd.2, ?_⟩
          intro x hx hxs
          rcases List.mem_append.mp hxs with hxseen | hxc
          · exact (hall x (List.mem_cons_of_mem c hx)) hxseen
          · rw [List.mem_singleton] at hxc
            subst hxc
            exact hnd.1 hx

theorem duplicatesIn_ne_nil_of_not_nodup (l : List String)
    (h : ¬ l.Nodup) : duplicatesIn l [] ≠ [] := by
  intro hnil
  exact h ((duplicatesIn_eq_nil_iff l []).mp hnil).1

theorem mem_duplicatesIn_of_mem_seen (l : List String) (x : String) :
    ∀ seen, x ∈ seen → x ∈ l → x ∈ duplicatesIn l seen := by
  induction l with
  | nil =>
      intro seen _ hl
      exact absurd hl (List.not_mem_nil x)
  | cons c rest ih =>
      intro seen hs hl
      simp only [duplicatesIn]
      rcases List.mem_cons.mp hl with rfl | hx'
      · rw [if_pos hs]
        exact List.mem_cons_self x _
      · by_cases hc : c ∈ seen
        · rw [if_pos hc]
          exact List.mem_cons_of_mem c
            (ih (seen ++ [c]) (List.mem_append_left _ hs) hx')
        · rw [if_neg hc]
          exact ih (seen ++ [c]) (List.mem_append_left _ hs) hx'

theorem mem_duplicatesIn_of_count (l : List String) (x : String)
    (h : 2 ≤ l.count x) : ∀ seen, x ∈ duplicatesIn l seen := by
  induction l with
  | nil => simp at h
  | cons c rest ih =>
      intro seen
      simp only [duplicatesIn]
      by_cases hxc : x = c
      · subst hxc
        have hrest : x ∈ rest := by
          by_contra hno
          rw [List.count_cons_self, List.count_eq_zero.mpr hno] at h
          omega
        by_cases hc : x ∈ seen
        · rw [if_pos hc]
          exact List.mem_cons_self x _
        · rw [if_neg hc]
          exact mem_duplicatesIn_of_mem_seen rest x (seen ++ [x])
            (List.mem_append_right _ (List.mem_singleton_self x)) hrest
      · have hcount : 2 ≤ rest.count x := by
          rw [List.count_cons_of_ne hxc] at h
          exact h
        by_cases hc : c ∈ seen
        · rw [if_pos hc]
          exact List.mem_cons_of_mem c (ih hcount (seen ++ [c]))
        · rw [if_neg hc]
          exact ih hcount (seen ++ [c])

theorem mem_dedupAux (l : List String) (x : String) :
    ∀ seen, (x ∈ dedupAux l seen ↔ x ∈ l ∧ x ∉ seen) := by
  induction l with
  | nil => intro seen; simp [dedupAux]
  | cons c rest ih =>
      intro seen
      simp only [dedupAux]
      by_cases hc : c ∈ seen
      · rw [if_pos hc, ih]
        constructor
        · rintro ⟨hx, hxs⟩
          exact ⟨List.mem_cons_of_mem c hx, hxs⟩
        · rintro ⟨hx, hxs⟩
          rcases List.mem_cons.mp hx with rfl | hx'
          · exact absurd hc hxs
          · exact ⟨hx', hxs⟩
      · rw [if_neg hc]
        simp only [List.mem_cons, ih, List.mem_append, List.mem_singleton]
        constructor
        · rintro (rfl | ⟨hx, hxs⟩)
          · exact ⟨Or.inl rfl, hc⟩
          · exact ⟨Or.inr hx, fun hs => hxs (Or.inl hs)⟩
        · rintro ⟨rfl | hx, hxs⟩
          · exact Or.inl rfl
          · by_cases hxc : x = c
            · exact Or.inl hxc
            · exact Or.inr ⟨hx, fun hor =>
                hor.elim hxs (fun hh => hh.elim hxc (List.not_mem_nil x))⟩

theorem mem_dedupFirst (l : List String) (x : String) :
    x ∈ dedupFirst l ↔ x ∈ l := by
  rw [dedupFirst, mem_dedupAux]
  simp

/-- C10: duplicate product rejection in entry creation — when the products
payload repeats a product_code, `createEntryOrder` throws the
duplicate-codes error (whose text lists every duplicated code, deduplicated)
and the transaction rolls back, so no Order, EntryOrder or
EntryOrderProduct row is created: the store is returned unchanged. -/
theorem createEntryOrder_duplicate_rejected (s : Store) (d : EntryData)
    (ps : List EntryProductData) (hps : d.products = some ps)
    (hdup : ¬ (ps.map EntryProductData.product_code).Nodup) :
    createEntryOrder s d =
      (s, Except.error (dupEntryMessage (ps.map EntryProductData.product_code))) ∧
    (∀ code, 2 ≤ (ps.map EntryProductData.product_code).count code →
      code ∈ dedupFirst (duplicatesIn (ps.map EntryProductData.product_code) [])) := by
  have hne : duplicatesIn (ps.map EntryProductData.product_code) [] ≠ [] :=
    duplicatesIn_ne_nil_of_not_nodup _ hdup
  constructor
  · have htx : (createEntryOrderTx s d).2 =
        Except.error (dupEntryMessage (ps.map EntryProductData.product_code)) := by
      simp only [createEntryOrderTx, hps]
      rw [if_pos hne]
    simp only [createEntryOrder]
    exact runTx_of_snd_error _ s _ htx
  · intro code hcount
    rw [mem_dedupFirst]
    exact mem_duplicatesIn_of_count _ code hcount []

/-- C10 witness: an entry order listing product code PC1 twice is rejected
with the duplicate-codes message and the empty store is unchanged. -/
theorem createEntryOrder_duplicate_rejected_witness :
    createEntryOrder emptyStore demoDupEntryData =
      (emptyStore, Except.error (dupEntryMessage
        ([demoEntryProduct, demoEntryProduct].map EntryProductData.product_code))) :=
  (createEntryOrder_duplicate_rejected emptyStore demoDupEntryData
    [demoEntryProduct, demoEntryProduct] (by decide) (by decide)).1

end TsLogix
